import Mathlib

/-!
Verification of the vimg image-transformation planner.

This file shallowly embeds the planning logic of the vimg repository
(`vipsimage.go` and the `Image` wrapper) in Lean 4 and settles the frozen
claims about it.

Modelling conventions:
* Go `int` fields become `Int`; Go `float64`/`float32` arithmetic is modelled
  exactly over `Rat` (the source only divides, multiplies, compares, floors
  and rounds magnitudes far from overflow, so exact rational arithmetic is
  the intended real-number semantics of those float computations).
* The libvips engine is an external collaborator: every `vips*` bridge call
  is represented by an oracle (`Engine`) giving each call's outcome, and the
  planner is a pure function threading the image handle, the options and a
  trace of the engine calls it performed.
* Output-encoding options (Quality, Compression, Interlace, Interpretation,
  ICC...) do not influence the planning logic under verification and are
  omitted from the `Options` embedding; `applyDefaults` is embedded only in
  its `Type` defaulting, which the planner's support check reads.
* The `Options`/`Gravity`/`Position`/`Color` declarations themselves live in
  a repository file missing from the sources (only their uses are present);
  the fields and constructors embedded here are exactly the ones the present
  sources use, with `ColorBlack` modelled from the spec as the zero colour.
-/

/-- EXIF/user rotation angle in degrees (the Go `Angle` int type;
`D0=0, D90=90, D180=180, D270=270`). -/
abbrev Angle := Int

/-- Crop gravity (constructors as used by `calculateCrop` and
`extractOrEmbedImage`; `centre` is the zero value hit by the default case). -/
inductive Gravity
  | centre
  | north
  | east
  | south
  | west
  | smart
deriving DecidableEq, Repr

/-- Watermark alignment position (constructors as used by
`vipsDrawWatermark`; `unspecified` stands for any other value of the Go int
enum, which matches no case of the placement switches). -/
inductive Position
  | top
  | bottom
  | left
  | right
  | centre
  | unspecified
deriving DecidableEq, Repr

/-- Flip direction passed to `vipsFlip`. -/
inductive Direction
  | vertical
  | horizontal
deriving DecidableEq, Repr

/-- Image formats (the Go `ImageType` enum from the type registry file). -/
inductive ImageType
  | unknown
  | jpeg
  | webp
  | png
  | tiff
  | gif
  | pdf
  | svg
  | magick
deriving DecidableEq, Repr

/-- RGBA colour (fields as read by `vipsRotate`, `Flatten`, `vipsTrim`). -/
structure Color where
  R : Rat := 0
  G : Rat := 0
  B : Rat := 0
  A : Rat := 0
deriving DecidableEq, Repr

/-- Modelled from the spec: the package's default background colour constant
(the missing options file defines `ColorBlack`; the spec calls it the
"default" background that disables flattening). -/
def ColorBlack : Color := {}

/-- Extract region options (float32 fields in Go). -/
structure Extract where
  Left : Rat := 0
  Top : Rat := 0
  Width : Rat := 0
  Height : Rat := 0
  Relative : Bool := false
deriving DecidableEq, Repr

/-- Gaussian blur options. -/
structure GaussianBlur where
  Sigma : Rat := 0
  MinAmpl : Rat := 0
deriving DecidableEq, Repr

/-- Sharpen options. -/
structure Sharpen where
  Sigma : Rat := 0
  X1 : Rat := 0
  Y2 : Rat := 0
  Y3 : Rat := 0
  M1 : Rat := 0
  M2 : Rat := 0
deriving DecidableEq, Repr

/-- Text watermark options (fields used by `watermarkWithText`). -/
structure Watermark where
  Text : String := ""
  Font : String := ""
  Width : Int := 0
  DPI : Int := 0
  Margin : Int := 0
  NoReplicate : Bool := false
  HOffset : Rat := 0
  VOffset : Rat := 0
  HAlign : Position := .unspecified
  VAlign : Position := .unspecified
deriving DecidableEq, Repr

/-- Image watermark options (fields used by `watermarkWithImage` and
`vipsDrawWatermark`; `Buf` is the watermark image byte buffer). -/
structure WatermarkImage where
  Buf : List Nat := []
  Opacity : Rat := 0
  Width : Rat := 0
  HOffset : Rat := 0
  VOffset : Rat := 0
  HAlign : Position := .unspecified
  VAlign : Position := .unspecified
  Relative : Bool := false
  BlendMode : Int := 0
deriving DecidableEq, Repr

/-- Transformation options (the fields of the Go `Options` struct that the
embedded planning logic reads or writes). -/
structure Options where
  Width : Int := 0
  Height : Int := 0
  Crop : Bool := false
  Embed : Bool := false
  Force : Bool := false
  Enlarge : Bool := false
  MaintainAspect : Bool := false
  SmartCrop : Bool := false
  Trim : Bool := false
  Flip : Bool := false
  Flop : Bool := false
  NoAutoRotate : Bool := false
  Rotate : Angle := 0
  Zoom : Int := 0
  Gravity : Gravity := .centre
  Extract : Extract := {}
  GaussianBlur : GaussianBlur := {}
  Sharpen : Sharpen := {}
  Gamma : Rat := 0
  Background : Color := {}
  Threshold : Rat := 0
  Watermark : Watermark := {}
  WatermarkImage : WatermarkImage := {}
  Type' : ImageType := .unknown
deriving DecidableEq, Repr

/-- The live image handle's observable state: dimensions (`Image.Xsize`,
`Image.Ysize`), the working byte buffer (its length is all the planner
inspects) and the detected source format. -/
structure Img where
  Xsize : Int
  Ysize : Int
  BufLen : Nat
  Type' : ImageType
deriving DecidableEq, Repr

/-- Go's `int` division truncates toward zero (`Int.tdiv`), unlike Lean's
`/` on `Int` which is Euclidean; every integer division taken from the Go
source goes through this. The Go source field `Type` is rendered `Type'`
here because `Type` is a Lean keyword. -/
def goDiv (a b : Int) : Int := Int.tdiv a b

/-- `roundFloat` (vipsimage.go): round half away from zero to an int. -/
def roundFloat (f : Rat) : Int :=
  if f < 0 then ⌈f - 1/2⌉ else ⌊f + 1/2⌋

/-- The guard shared verbatim by `ScaleFactor`, `calculateShrink` and
`calculateResidual` (vipsimage.go lines 544, 670, 690): enlargement and
forcing disallowed while the source is strictly inside the requested box. -/
def noEnlargeShortCircuit (img : Img) (o : Options) : Bool :=
  !o.Enlarge && !o.Force && decide (img.Xsize < o.Width) && decide (img.Ysize < o.Height)

/-- `ScaleFactor` (vipsimage.go lines 542-588). Returns the factor and the
options as mutated through the `o := &img.Options` pointer (the one-sided
branches resolve the unconstrained dimension in place). -/
def ScaleFactor (img : Img) (o : Options) : Rat × Options :=
  if noEnlargeShortCircuit img o then (1, o)
  else
    let inWidth := img.Xsize
    let inHeight := img.Ysize
    let xfactor : Rat := (inWidth : Rat) / (o.Width : Rat)
    let yfactor : Rat := (inHeight : Rat) / (o.Height : Rat)
    if 0 < o.Width ∧ 0 < o.Height then
      (if o.Crop then min xfactor yfactor else max xfactor yfactor, o)
    else if 0 < o.Width then
      if o.Crop then (1, { o with Height := inHeight })
      else (xfactor, { o with Height := roundFloat ((inHeight : Rat) / xfactor) })
    else if 0 < o.Height then
      if o.Crop then (1, { o with Width := inWidth })
      else (yfactor, { o with Width := roundFloat ((inWidth : Rat) / yfactor) })
    else
      (1, { o with Width := inWidth, Height := inHeight })

/-- `calculateShrink` (vipsimage.go lines 668-687). `windowSize` is the
result of the external `vipsWindowSize` call on the configured interpolator,
passed in as a parameter. -/
def calculateShrink (windowSize : Rat) (img : Img) (o : Options) : Int × Options :=
  if noEnlargeShortCircuit img o then (1, o)
  else
    let fo := ScaleFactor img o
    let factor := fo.1
    let shrink : Int :=
      if 2 ≤ factor ∧ 3 < windowSize then ⌊factor * 3 / windowSize⌋
      else ⌊factor⌋
    (max shrink 1, fo.2)

/-- `calculateResidual` (vipsimage.go lines 689-695): `calculateShrink`
divided by `ScaleFactor`, with the Go evaluation order (the left operand's
internal `ScaleFactor` call mutates the options first). -/
def calculateResidual (windowSize : Rat) (img : Img) (o : Options) : Rat × Options :=
  if noEnlargeShortCircuit img o then (0, o)
  else
    let so := calculateShrink windowSize img o
    let fo := ScaleFactor img so.2
    ((so.1 : Rat) / fo.1, fo.2)

/-- `calculateCrop` (vipsimage.go lines 597-617). -/
def calculateCrop (inWidth inHeight outWidth outHeight : Int) (gravity : Gravity) :
    Int × Int :=
  match gravity with
  | .north => (goDiv (inWidth - outWidth + 1) 2, 0)
  | .east => (inWidth - outWidth, goDiv (inHeight - outHeight + 1) 2)
  | .south => (goDiv (inWidth - outWidth + 1) 2, inHeight - outHeight)
  | .west => (0, goDiv (inHeight - outHeight + 1) 2)
  | _ => (goDiv (inWidth - outWidth + 1) 2, goDiv (inHeight - outHeight + 1) 2)

/-- The EXIF orientation switch inside `calculateRotationAndFlip`
(vipsimage.go lines 636-661): orientation code to (rotation, flip). -/
def exifOrientationTable (o : Int) : Angle × Bool :=
  if o = 6 then (90, false)
  else if o = 3 then (180, false)
  else if o = 8 then (270, false)
  else if o = 2 then (0, true)
  else if o = 7 then (270, true)
  else if o = 4 then (180, true)
  else if o = 5 then (90, true)
  else (0, false)

/-- `calculateRotationAndFlip` (vipsimage.go lines 624-666) as a pure
function of the options, the additive flag and the EXIF orientation the
engine reported (the engine call's own failure is handled by the caller in
the pipeline model). -/
def calculateRotationAndFlip (o : Options) (additive : Bool) (exif : Int) :
    Angle × Bool :=
  let angle := o.Rotate
  if 0 < angle ∧ ¬additive then (0, false)
  else
    let rf := exifOrientationTable exif
    (if additive then rf.1 + angle else rf.1, rf.2)

/-- `normalizeOperation` (vipsimage.go lines 248-253). -/
def normalizeOperation (o : Options) : Options :=
  if !o.MaintainAspect && !o.Force && !o.Crop && !o.Embed && !o.Enlarge
      && decide (o.Rotate = 0) && (decide (0 < o.Width) || decide (0 < o.Height)) then
    { o with Force := true }
  else o

/-- `shouldTransformImage` (vipsimage.go lines 255-269). -/
def shouldTransformImage (img : Img) (o : Options) : Bool :=
  o.Force || (decide (0 < o.Width) && decide (o.Width < img.Xsize))
    || (decide (0 < o.Height) && decide (o.Height < img.Ysize))
    || decide (0 < o.Extract.Width) || decide (0 < o.Extract.Height)
    || (decide (0 < o.Height) && decide (img.Ysize < o.Height) && o.Enlarge)
    || (decide (0 < o.Width) && decide (img.Xsize < o.Width) && o.Enlarge)
    || o.Trim

/-- `shouldApplyEffects` (vipsimage.go lines 271-274), with Go's `&&`
binding tighter than `||`. -/
def shouldApplyEffects (o : Options) : Bool :=
  decide (0 < o.GaussianBlur.Sigma) || decide (0 < o.GaussianBlur.MinAmpl)
    || (decide (0 < o.Sharpen.Sigma) && decide (0 < o.Sharpen.Y2))
    || decide (0 < o.Sharpen.Y3)

/-- The enlargement clamp at the head of `Process` (vipsimage.go lines
119-125). -/
def enlargeClamp (img : Img) (o : Options) : Options :=
  if !o.Enlarge && !o.Force && decide (img.Xsize < o.Width) && decide (img.Ysize < o.Height) then
    { o with Width := img.Xsize, Height := img.Ysize }
  else o

/-- The geometry fragment of `Process` (vipsimage.go lines 113-127):
`normalizeOperation`, the enlargement clamp, then `ScaleFactor`; returns the
effective width, height and scale factor. -/
def processResizeDims (img : Img) (o : Options) : Int × Int × Rat :=
  let o1 := normalizeOperation o
  let o2 := enlargeClamp img o1
  let fo := ScaleFactor img o2
  (fo.2.Width, fo.2.Height, fo.1)

/-- The watermark placement computation inside `vipsDrawWatermark`
(vipsimage.go lines 2210-2254): given the source and (already scaled)
watermark dimensions, the alignment enums, the offsets and the relative
flag, produce the (left, top) drawing position. An unmatched alignment
leaves the coordinate at its zero value, as in the Go switches. -/
def vipsDrawWatermarkPlacement (relative : Bool) (hAlign vAlign : Position)
    (hOffset vOffset srcX srcY wmX wmY : Rat) : Rat × Rat :=
  if relative then
    let left : Rat :=
      match hAlign with
      | .left => (hOffset / 100) * srcX
      | .right => srcX - (hOffset / 100) * srcX - wmX
      | .centre => (srcX - wmX) / 2
      | _ => 0
    let top : Rat :=
      match vAlign with
      | .top => (vOffset / 100) * srcY
      | .bottom => srcY - (vOffset / 100) * srcY - wmY
      | .centre => (srcY - wmY) / 2
      | _ => 0
    (left, top)
  else
    let left : Rat :=
      match hAlign with
      | .left => hOffset
      | .right => srcX - hOffset - wmX
      | .centre => (srcX - wmX) / 2
      | _ => 0
    let top : Rat :=
      match vAlign with
      | .top => vOffset
      | .bottom => srcY - vOffset - wmY
      | .centre => (srcY - wmY) / 2
      | _ => 0
    (left, top)

/-- Tags naming the engine (libvips bridge) calls the planner can perform,
in the order they appear in the trace. -/
inductive CallTag
  | exifOrientation
  | rotate
  | flip
  | flop
  | getBuffer
  | shrinkJpeg
  | shrinkWebp
  | zoom
  | shrinkCall
  | resize
  | smartCrop
  | extractArea
  | embed
  | findTrim
  | gaussianBlur
  | sharpen
  | watermarkText
  | watermarkImage
  | hasAlpha
  | flattenBg
  | gamma
deriving DecidableEq, Repr

/-- Oracle for the external libvips engine: the outcome of each bridge call
the planner may make (each stage calls its operation at most once per
`Process` run), plus the engine constants the planner reads
(`vipsWindowSize`, the libvips version, and the lazily discovered
type-support registry). -/
structure Engine where
  exifOrientation : Except String Int
  rotate : Except String Img
  flip : Direction → Except String Img
  getImageBuffer : Except String Nat
  shrinkJpeg : Except String Img
  shrinkWebp : Except String Img
  zoom : Except String Img
  shrinkOp : Except String Img
  resize : Except String Img
  smartCrop : Except String Img
  extractArea : Except String Img
  embed : Except String Img
  findTrim : Except String (Int × Int × Int × Int)
  gaussianBlur : Except String Img
  sharpen : Except String Img
  watermarkText : Except String Img
  watermarkImage : Except String Img
  hasAlpha : Except String Bool
  flattenBg : Except String Img
  gamma : Except String Img
  typeSupportedLoad : ImageType → Bool
  windowSize : Rat
  vipsMajorVersion : Int
  vipsMinorVersion : Int

/-- `IsTypeSupported`: membership in the `ImageTypes` map (every named type,
not UNKNOWN) and the engine's load capability. -/
def IsTypeSupported (E : Engine) (t : ImageType) : Bool :=
  decide (t ≠ .unknown) && E.typeSupportedLoad t

/-- State threaded through the rotate/flip applications inside
`rotateAndFlipImage`: current handle, the single Go `err` variable, the
`rotated` flag and the call trace. -/
structure RFState where
  img : Img
  pendingErr : Option String
  rotated : Bool
  trace : List CallTag

/-- One rotate/flip engine application (vipsimage.go lines 403-417): the Go
code assigns `err` from each call WITHOUT checking it in between, so a later
successful call overwrites an earlier failure; on failure the handle is left
unchanged. -/
def rotFlipStep (s : RFState) (r : Except String Img) (t : CallTag) : RFState :=
  match r with
  | .ok i => ⟨i, none, true, s.trace ++ [t]⟩
  | .error e => ⟨s.img, some e, true, s.trace ++ [t]⟩

/-- `rotateAndFlipImage` (vipsimage.go lines 388-419): resolve rotation/flip
(consulting EXIF through the engine unless the early return in
`calculateRotationAndFlip` applies), update the options when auto-rotate is
active, then apply rotate, flip and flop, returning whatever is left in
`err`. -/
def rotateAndFlipImage (E : Engine) (img : Img) (o : Options) (additive : Bool) :
    Except String (Bool × Img × Options) × List CallTag :=
  let early := 0 < o.Rotate ∧ ¬additive
  let exifRes : Except String Int := if early then .ok 0 else E.exifOrientation
  let tr0 : List CallTag := if early then [] else [.exifOrientation]
  match exifRes with
  | .error e => (.error e, tr0)
  | .ok ex =>
    let rf := calculateRotationAndFlip o additive ex
    let o1 := if o.NoAutoRotate = false then
        { o with Flip := if rf.2 ∧ o.Flip then false else o.Flip, Rotate := rf.1 }
      else o
    let s0 : RFState := ⟨img, none, false, tr0⟩
    let s1 := if 0 < o1.Rotate then rotFlipStep s0 E.rotate .rotate else s0
    let s2 := if o1.Flip then rotFlipStep s1 (E.flip .vertical) .flip else s1
    let s3 := if o1.Flop then rotFlipStep s2 (E.flip .horizontal) .flop else s2
    match s3.pendingErr with
    | some e => (.error e, s3.trace)
    | none => (.ok (s3.rotated, s3.img, o1), s3.trace)

/-- `shrinkOnLoad` (vipsimage.go lines 512-540): recompute shrink and factor
(mutating the options through the internal `ScaleFactor` calls), then reload
with a decode-time shrink for JPEG (2/4/8, dividing the factor accordingly)
or WebP. -/
def shrinkOnLoad (E : Engine) (img : Img) (o : Options) :
    Except String (Rat × Img × Options) × List CallTag :=
  let so := calculateShrink E.windowSize img o
  let fo := ScaleFactor img so.2
  let shrink := so.1
  let factor := fo.1
  if img.Type' = .jpeg ∧ 2 ≤ shrink then
    let fdiv : Rat :=
      if 8 ≤ shrink then factor / 8
      else if 4 ≤ shrink then factor / 4
      else factor / 2
    match E.shrinkJpeg with
    | .ok i => (.ok (fdiv, i, fo.2), [.shrinkJpeg])
    | .error e => (.error e, [.shrinkJpeg])
  else if img.Type' = .webp ∧ 2 ≤ shrink then
    match E.shrinkWebp with
    | .ok i => (.ok (factor, i, fo.2), [.shrinkWebp])
    | .error e => (.error e, [.shrinkWebp])
  else (.ok (factor, img, fo.2), [])

/-- `zoomImage` (vipsimage.go lines 481-490). -/
def zoomImage (E : Engine) (img : Img) (o : Options) :
    Except String Img × List CallTag :=
  if ¬(o.Zoom = 0) then
    match E.zoom with
    | .ok i => (.ok i, [.zoom])
    | .error e => (.error e, [.zoom])
  else (.ok img, [])

/-- Result of `extractOrEmbedImage`: the (possibly in-place mutated) handle,
the optional freshly produced image, the returned `err`, and the trace. -/
structure ExtractResult where
  img : Img
  newImage : Option Img
  errResult : Option String
  trace : List CallTag

/-- `extractOrEmbedImage` (vipsimage.go lines 342-386). The crop arguments
fed to the engine are computed as in the source (the oracle abstracts the
call outcome). In the Trim case the source redeclares `err` with `:=` in the
case's own scope, shadowing the function's `err`: failures of `vipsTrim` and
of the following `vipsExtract` never reach the returned error, which stays
nil. -/
def extractOrEmbedImage (E : Engine) (img : Img) (o : Options) : ExtractResult :=
  let inWidth := img.Xsize
  let inHeight := img.Ysize
  if o.Gravity = .smart ∨ o.SmartCrop then
    match E.smartCrop with
    | .ok i => ⟨i, none, none, [.smartCrop]⟩
    | .error e => ⟨img, none, some e, [.smartCrop]⟩
  else if o.Crop then
    let _width := min inWidth o.Width
    let _height := min inHeight o.Height
    let lt := calculateCrop inWidth inHeight o.Width o.Height o.Gravity
    let _left := max lt.1 0
    let _top := max lt.2 0
    match E.extractArea with
    | .ok i => ⟨img, some i, none, [.extractArea]⟩
    | .error e => ⟨img, none, some e, [.extractArea]⟩
  else if o.Embed then
    let _left := goDiv (o.Width - inWidth) 2
    let _top := goDiv (o.Height - inHeight) 2
    match E.embed with
    | .ok i => ⟨i, none, none, [.embed]⟩
    | .error e => ⟨img, none, some e, [.embed]⟩
  else if o.Trim then
    match E.findTrim with
    | .ok _ =>
      match E.extractArea with
      | .ok i => ⟨img, some i, none, [.findTrim, .extractArea]⟩
      | .error _ => ⟨img, none, none, [.findTrim, .extractArea]⟩
    | .error _ => ⟨img, none, none, [.findTrim]⟩
  else if ¬(o.Extract.Top = 0) ∨ ¬(o.Extract.Left = 0)
      ∨ ¬(o.Extract.Width = 0) ∨ ¬(o.Extract.Height = 0) then
    let ew := if o.Extract.Width = 0 then (o.Width : Rat) else o.Extract.Width
    let eh := if o.Extract.Height = 0 then (o.Height : Rat) else o.Extract.Height
    if ew = 0 ∨ eh = 0 then
      ⟨img, none, some "extract area width/height params are required", []⟩
    else
      match E.extractArea with
      | .ok i => ⟨img, some i, none, [.extractArea]⟩
      | .error e => ⟨img, none, some e, [.extractArea]⟩
  else ⟨img, none, none, []⟩

/-- `transformImage` (vipsimage.go lines 276-317): integral shrink with
residual recomputation from the post-shrink dimensions, affine resize,
force-mode crop/embed clearing, then the extract-or-embed dispatch, swapping
in a produced image when it has a non-empty buffer. -/
def transformImage (E : Engine) (img : Img) (o : Options) (shrink : Int)
    (residual : Rat) : Except String (Img × Options) × List CallTag :=
  let step1 : Except String (Img × Rat) × List CallTag :=
    if 1 < shrink then
      match E.shrinkOp with
      | .ok i =>
        let residualx := (o.Width : Rat) / (i.Xsize : Rat)
        let residualy := (o.Height : Rat) / (i.Ysize : Rat)
        (.ok (i, if o.Crop then max residualx residualy else min residualx residualy),
          [.shrinkCall])
      | .error e => (.error e, [.shrinkCall])
    else (.ok (img, residual), [])
  match step1 with
  | (.error e, tr) => (.error e, tr)
  | (.ok (img1, residual1), tr1) =>
    let step2 : Except String Img × List CallTag :=
      if o.Force ∨ ¬(residual1 = 0) then
        match E.resize with
        | .ok i => (.ok i, [.resize])
        | .error e => (.error e, [.resize])
      else (.ok img1, [])
    match step2 with
    | (.error e, tr2) => (.error e, tr1 ++ tr2)
    | (.ok img2, tr2) =>
      let o1 := if o.Force then { o with Crop := false, Embed := false } else o
      let er := extractOrEmbedImage E img2 o1
      match er.errResult with
      | some e => (.error e, tr1 ++ tr2 ++ er.trace)
      | none =>
        match er.newImage with
        | some i =>
          if 0 < i.BufLen then (.ok (i, o1), tr1 ++ tr2 ++ er.trace)
          else (.ok (er.img, o1), tr1 ++ tr2 ++ er.trace)
        | none => (.ok (er.img, o1), tr1 ++ tr2 ++ er.trace)

/-- `applyEffects` (vipsimage.go lines 319-337). -/
def applyEffects (E : Engine) (img : Img) (o : Options) :
    Except String Img × List CallTag :=
  let step1 : Except String Img × List CallTag :=
    if 0 < o.GaussianBlur.Sigma ∨ 0 < o.GaussianBlur.MinAmpl then
      match E.gaussianBlur with
      | .ok i => (.ok i, [.gaussianBlur])
      | .error e => (.error e, [.gaussianBlur])
    else (.ok img, [])
  match step1 with
  | (.error e, tr) => (.error e, tr)
  | (.ok i1, tr1) =>
    if (0 < o.Sharpen.Sigma ∧ 0 < o.Sharpen.Y2) ∨ 0 < o.Sharpen.Y3 then
      match E.sharpen with
      | .ok i => (.ok i, tr1 ++ [.sharpen])
      | .error e => (.error e, tr1 ++ [.sharpen])
    else (.ok i1, tr1)

/-- `watermarkWithText` (vipsimage.go lines 421-448): skip on empty text,
default font, width (source width / 6), DPI (150) and margin, then the
engine composite. The `WatermarkFont` default constant lives in the missing
options file; its value does not affect the oracle outcome. -/
def watermarkWithText (E : Engine) (img : Img) (o : Options) :
    Except String Img × List CallTag :=
  let w := o.Watermark
  if w.Text = "" then (.ok img, [])
  else
    let width := if w.Width = 0 then goDiv img.Xsize 6 else w.Width
    let _dpi := if w.DPI = 0 then (150 : Int) else w.DPI
    let _margin := if w.Margin = 0 then width else w.Margin
    match E.watermarkText with
    | .ok i => (.ok i, [.watermarkText])
    | .error e => (.error e, [.watermarkText])

/-- `watermarkWithImage` + `vipsDrawWatermark` (vipsimage.go lines 450-469,
2171-2268): skip on an empty watermark buffer, default opacity to 1; the
load of the watermark buffer, its nested `Process` run, the placement
computation (`vipsDrawWatermarkPlacement`) and the composite are abstracted
as one oracle outcome. -/
def watermarkWithImage (E : Engine) (img : Img) (o : Options) :
    Except String Img × List CallTag :=
  let w := o.WatermarkImage
  if w.Buf = [] then (.ok img, [])
  else
    let _opacity := if w.Opacity = 0 then (1 : Rat) else w.Opacity
    match E.watermarkImage with
    | .ok i => (.ok i, [.watermarkImage])
    | .error e => (.error e, [.watermarkImage])

/-- `Flatten` (vipsimage.go lines 471-479) with `vipsFlattenBackground`
(lines 1571-1598): only PNG sources with a non-default background; a failed
`hasAlpha` probe silently skips flattening. -/
def Flatten (E : Engine) (img : Img) (o : Options) :
    Except String Img × List CallTag :=
  if ¬(img.Type' = .png) ∨ o.Background = ColorBlack then (.ok img, [])
  else
    match E.hasAlpha with
    | .ok true =>
      match E.flattenBg with
      | .ok i => (.ok i, [.hasAlpha, .flattenBg])
      | .error e => (.error e, [.hasAlpha, .flattenBg])
    | .ok false => (.ok img, [.hasAlpha])
    | .error _ => (.ok img, [.hasAlpha])

/-- `applyGamma` (vipsimage.go lines 706-715); the source reads `o.Gamma`
with no local `o` in scope, taken as the image's options. -/
def applyGamma (E : Engine) (img : Img) (o : Options) :
    Except String Img × List CallTag :=
  if 0 < o.Gamma then
    match E.gamma with
    | .ok i => (.ok i, [.gamma])
    | .error e => (.error e, [.gamma])
  else (.ok img, [])

/-- `Process` (vipsimage.go lines 86-192): the full planning pipeline with
the engine oracle, returning the final image and options or the first error
the Go code actually surfaces, together with the trace of engine calls made. -/
def ProcessGo (E : Engine) (img0 : Img) (opts0 : Options) :
    Except String (Img × Options) × List CallTag :=
  let o0 := if opts0.Type' = .unknown then { opts0 with Type' := img0.Type' } else opts0
  if ¬(IsTypeSupported E o0.Type' = true) then (.error "Unsupported image output type", [])
  else
    match rotateAndFlipImage E img0 o0 true with
    | (.error e, trA) => (.error e, trA)
    | (.ok (rotated, img1, o1), trA) =>
      let bufStep : Except String Img × List CallTag :=
        if rotated then
          match E.getImageBuffer with
          | .ok n => (.ok { img1 with BufLen := n }, [.getBuffer])
          | .error e => (.error e, [.getBuffer])
        else (.ok img1, [])
      match bufStep with
      | (.error e, trB) => (.error e, trA ++ trB)
      | (.ok img2, trB) =>
        let o2 := normalizeOperation o1
        let o3 := enlargeClamp img2 o2
        let fo := ScaleFactor img2 o3
        let so := calculateShrink E.windowSize img2 fo.2
        let ro := calculateResidual E.windowSize img2 so.2
        let factor := fo.1
        let shrink := so.1
        let residual := ro.1
        let o4 := ro.2
        let supportsShrinkOnLoad :=
          (img2.Type' = .webp ∧ 8 ≤ E.vipsMajorVersion ∧ 3 ≤ E.vipsMinorVersion)
            ∨ img2.Type' = .jpeg
        let solStep : Except String (Rat × Int × Rat × Img × Options) × List CallTag :=
          if supportsShrinkOnLoad ∧ 2 ≤ shrink then
            match shrinkOnLoad E img2 o4 with
            | (.error e, tr) => (.error e, tr)
            | (.ok (f1, i1, o5), tr) =>
              let f2 := max f1 1
              (.ok (f2, ⌊f2⌋, (⌊f2⌋ : Rat) / f2, i1, o5), tr)
          else (.ok (factor, shrink, residual, img2, o4), [])
        match solStep with
        | (.error e, trC) => (.error e, trA ++ trB ++ trC)
        | (.ok (_factor2, shrink2, residual2, img3, o5), trC) =>
          match zoomImage E img3 o5 with
          | (.error e, trD) => (.error e, trA ++ trB ++ trC ++ trD)
          | (.ok img4, trD) =>
            let txStep : Except String (Img × Options) × List CallTag :=
              if shouldTransformImage img4 o5 then
                transformImage E img4 o5 shrink2 residual2
              else (.ok (img4, o5), [])
            match txStep with
            | (.error e, trE) => (.error e, trA ++ trB ++ trC ++ trD ++ trE)
            | (.ok (img5, o6), trE) =>
              let fxStep : Except String Img × List CallTag :=
                if shouldApplyEffects o6 then applyEffects E img5 o6
                else (.ok img5, [])
              match fxStep with
              | (.error e, trF) => (.error e, trA ++ trB ++ trC ++ trD ++ trE ++ trF)
              | (.ok img6, trF) =>
                match watermarkWithText E img6 o6 with
                | (.error e, trG) =>
                  (.error e, trA ++ trB ++ trC ++ trD ++ trE ++ trF ++ trG)
                | (.ok img7, trG) =>
                  match watermarkWithImage E img7 o6 with
                  | (.error e, trH) =>
                    (.error e, trA ++ trB ++ trC ++ trD ++ trE ++ trF ++ trG ++ trH)
                  | (.ok img8, trH) =>
                    match Flatten E img8 o6 with
                    | (.error e, trI) =>
                      (.error e, trA ++ trB ++ trC ++ trD ++ trE ++ trF ++ trG ++ trH ++ trI)
                    | (.ok img9, trI) =>
                      match applyGamma E img9 o6 with
                      | (.error e, trJ) =>
                        (.error e,
                          trA ++ trB ++ trC ++ trD ++ trE ++ trF ++ trG ++ trH ++ trI ++ trJ)
                      | (.ok img10, trJ) =>
                        (.ok (img10, o6),
                          trA ++ trB ++ trC ++ trD ++ trE ++ trF ++ trG ++ trH ++ trI ++ trJ)

/-- `ImageSize` (wrapper metadata types, src/unnamed/part_003 companion). -/
structure ImageSize where
  Width : Int := 0
  Height : Int := 0
deriving DecidableEq, Repr

/-- `ImageMetadata` as far as the wrapper claims need it (the remaining
fields are filled from engine EXIF reads and do not matter here). -/
structure ImageMetadata where
  Size : ImageSize := {}
deriving DecidableEq, Repr

/-- `Image.Metadata` (src/unnamed/part_003 lines 262-264). The Go body is
`return i.Metadata()` — a call to the very method being defined, not to the
underlying `VipsImage.Metadata`. `fuel` bounds the recursion depth; `none`
means no result was produced within that depth (the Go call never returns,
growing the stack until it overflows). -/
def Image.Metadata : Nat → Option ImageMetadata
  | 0 => none
  | fuel + 1 => Image.Metadata fuel

/-- `Image.Size` (src/unnamed/part_003 lines 284-288):
`m, err := i.Metadata(); return m.Size, err`. -/
def Image.Size (fuel : Nat) : Option ImageSize :=
  (Image.Metadata fuel).map (fun m => m.Size)

/-- A generic successful engine-call result image for concrete runs. -/
def okImg : Img := ⟨50, 40, 7, .jpeg⟩

/-- Engine oracle for the trim-error run: `vips_find_trim` fails, every
other call succeeds. -/
def c2Engine : Engine where
  exifOrientation := .ok 1
  rotate := .ok okImg
  flip := fun _ => .ok okImg
  getImageBuffer := .ok 7
  shrinkJpeg := .ok okImg
  shrinkWebp := .ok okImg
  zoom := .ok okImg
  shrinkOp := .ok okImg
  resize := .ok okImg
  smartCrop := .ok okImg
  extractArea := .ok okImg
  embed := .ok okImg
  findTrim := .error "trim failed"
  gaussianBlur := .ok okImg
  sharpen := .ok okImg
  watermarkText := .ok okImg
  watermarkImage := .ok okImg
  hasAlpha := .ok true
  flattenBg := .ok okImg
  gamma := .ok okImg
  typeSupportedLoad := fun _ => true
  windowSize := 2
  vipsMajorVersion := 8
  vipsMinorVersion := 6

/-- Source image for the trim-error run. -/
def c2Img : Img := ⟨100, 100, 10, .jpeg⟩

/-- Options for the trim-error run: trim requested, plus a text watermark so
a stage strictly after the transform stage is observable in the trace. -/
def c2Opts : Options := { Trim := true, Watermark := { Text := "w" } }

/-- Terminal options state of the trim-error run: the identity `ScaleFactor`
resolved the unconstrained dimensions to the source's 100x100 and
`applyDefaults` filled the output type from the source. -/
def c2OptsFinal : Options :=
  { Trim := true, Watermark := { Text := "w" }, Width := 100, Height := 100,
    Type' := ImageType.jpeg }

/-- Helper: once both target dimensions are resolved (positive), `ScaleFactor`
takes the fixed-width-and-height branch and leaves the options untouched. -/
theorem scaleFactor_state_eq (img : Img) (o : Options)
    (hW : 0 < o.Width) (hH : 0 < o.Height) : (ScaleFactor img o).2 = o := by
  unfold ScaleFactor
  split
  · rfl
  · simp [hW, hH]

/-- Helper: under resolved dimensions `calculateShrink` leaves the options
untouched as well (its only mutation channel is its `ScaleFactor` call). -/
theorem calculateShrink_state_eq (ws : Rat) (img : Img) (o : Options)
    (hW : 0 < o.Width) (hH : 0 < o.Height) : (calculateShrink ws img o).2 = o := by
  unfold calculateShrink
  split
  · rfl
  · simpa using scaleFactor_state_eq img o hW hH

/-- Helper: `calculateShrink` never returns less than 1 (the short-circuit
returns 1 and the main path clamps with `math.Max(shrink, 1)`). -/
theorem calculateShrink_pos (ws : Rat) (img : Img) (o : Options) :
    1 ≤ (calculateShrink ws img o).1 := by
  unfold calculateShrink
  split
  · exact le_refl 1
  · exact le_max_right _ 1

/-- C1: for a loaded image with both target dimensions positive and the
no-enlarge short-circuit not applying, `ScaleFactor` returns
min(inW/Width, inH/Height) when Crop is set and max of the same ratios when
Force is set and Crop is not. -/
theorem C1_scaleFactor_min_max (img : Img) (o : Options)
    (hW : 0 < o.Width) (hH : 0 < o.Height)
    (hSC : noEnlargeShortCircuit img o = false) :
    (o.Crop = true →
      (ScaleFactor img o).1
        = min ((img.Xsize : Rat) / (o.Width : Rat)) ((img.Ysize : Rat) / (o.Height : Rat))) ∧
    (o.Crop = false → o.Force = true →
      (ScaleFactor img o).1
        = max ((img.Xsize : Rat) / (o.Width : Rat)) ((img.Ysize : Rat) / (o.Height : Rat))) := by
  refine ⟨fun hc => ?_, fun hc _ => ?_⟩ <;> simp [ScaleFactor, hSC, hW, hH, hc]

/-- Witness for C1: a 1000x500 source cropped into a 100x100 box scales by
min(10, 5) = 5. -/
theorem C1_scaleFactor_min_max_witness :
    (ScaleFactor ⟨1000, 500, 7, ImageType.jpeg⟩
      { Width := 100, Height := 100, Crop := true }).1 = 5 := by
  have h := (C1_scaleFactor_min_max ⟨1000, 500, 7, ImageType.jpeg⟩
    { Width := 100, Height := 100, Crop := true } (by decide) (by decide) (by decide)).1 rfl
  rw [h]; norm_num

/-- C2 (code bug): with trim requested and an engine whose find-trim call
fails, `Process` still returns success and executes the later text-watermark
stage; the claimed immediate error propagation does not hold because the
Trim case of `extractOrEmbedImage` shadows `err` and drops the failure. -/
theorem C2_trim_error_swallowed :
    c2Engine.findTrim = Except.error "trim failed" ∧
    ProcessGo c2Engine c2Img c2Opts
      = (Except.ok (okImg, c2OptsFinal),
         [CallTag.exifOrientation, CallTag.resize, CallTag.findTrim, CallTag.watermarkText]) := by
  refine ⟨rfl, ?_⟩
  norm_num +decide [ProcessGo, IsTypeSupported, rotateAndFlipImage, calculateRotationAndFlip,
    exifOrientationTable, rotFlipStep, normalizeOperation, enlargeClamp, ScaleFactor,
    noEnlargeShortCircuit, calculateShrink, calculateResidual, shrinkOnLoad, zoomImage,
    shouldTransformImage, transformImage, extractOrEmbedImage, shouldApplyEffects,
    applyEffects, watermarkWithText, watermarkWithImage, Flatten, applyGamma,
    roundFloat, goDiv, c2Engine, c2Img, c2Opts, okImg, c2OptsFinal]

/-- C3: when (after `normalizeOperation`) enlargement and forcing are both
disallowed and the positive source is strictly smaller than the requested
box in both dimensions, `Process` clamps Width/Height down to the source
dimensions and `ScaleFactor` returns 1. -/
theorem C3_enlargement_guard (img : Img) (o : Options)
    (hx : 0 < img.Xsize) (hy : 0 < img.Ysize)
    (hE : o.Enlarge = false) (hF : (normalizeOperation o).Force = false)
    (hW : img.Xsize < o.Width) (hH : img.Ysize < o.Height) :
    processResizeDims img o = (img.Xsize, img.Ysize, 1) := by
  have hno : normalizeOperation o = o := by
    unfold normalizeOperation at hF ⊢
    split at hF
    · simp at hF
    · rename_i h
      rw [if_neg h]
  have hoF : o.Force = false := by rw [hno] at hF; exact hF
  have hxq : ((img.Xsize : Rat)) ≠ 0 := by
    exact_mod_cast (by omega : img.Xsize ≠ 0)
  have hyq : ((img.Ysize : Rat)) ≠ 0 := by
    exact_mod_cast (by omega : img.Ysize ≠ 0)
  unfold processResizeDims
  rw [hno]
  have hclamp : enlargeClamp img o = { o with Width := img.Xsize, Height := img.Ysize } := by
    unfold enlargeClamp
    rw [if_pos]
    simp [hE, hoF, hW, hH]
  simp only [hclamp]
  unfold ScaleFactor noEnlargeShortCircuit
  simp [hx, hy, div_self hxq, div_self hyq]

/-- Witness for C3: a 100x100 source requested at 200x200 (crop mode, so
normalization does not force) clamps to 100x100 with factor 1. -/
theorem C3_enlargement_guard_witness :
    processResizeDims ⟨100, 100, 10, ImageType.jpeg⟩
      { Width := 200, Height := 200, Crop := true } = (100, 100, 1) :=
  C3_enlargement_guard ⟨100, 100, 10, ImageType.jpeg⟩
    { Width := 200, Height := 200, Crop := true }
    (by decide) (by decide) (by decide) (by decide) (by decide) (by decide)

/-- C4 counterexample: EXIF code 6 (90 degrees) combined additively with a
user rotation of 270 yields 360 in the code, not the claimed mod-360 value 0,
and 360 is not one of the four cardinal values. -/
theorem C4_mod360_counterexample :
    (calculateRotationAndFlip { Rotate := 270 } true 6).1 = 360 ∧
    ((90 + 270) % 360 : Int) = 0 ∧
    ¬((calculateRotationAndFlip { Rotate := 270 } true 6).1
        ∈ ([0, 90, 180, 270] : List Int)) := by
  refine ⟨rfl, by decide, by decide⟩

/-- C4 amended: the EXIF table is as claimed (codes 0-8, anything outside
yielding no rotation), but in additive mode the resolved EXIF rotation and
the user rotation are added as plain integers with NO mod-360 reduction or
cardinal clamping; the particular instance EXIF 6 + user 90 = 180 holds. -/
theorem C4_orientation_additive_amended :
    (exifOrientationTable 0 = (0, false) ∧ exifOrientationTable 1 = (0, false) ∧
     exifOrientationTable 2 = (0, true) ∧ exifOrientationTable 3 = (180, false) ∧
     exifOrientationTable 4 = (180, true) ∧ exifOrientationTable 5 = (90, true) ∧
     exifOrientationTable 6 = (90, false) ∧ exifOrientationTable 7 = (270, true) ∧
     exifOrientationTable 8 = (270, false)) ∧
    (∀ e : Int, e < 0 ∨ 8 < e → exifOrientationTable e = (0, false)) ∧
    (∀ o : Options, ∀ e : Int,
      calculateRotationAndFlip o true e
        = ((exifOrientationTable e).1 + o.Rotate, (exifOrientationTable e).2)) ∧
    calculateRotationAndFlip { Rotate := 90 } true 6 = (180, false) := by
  refine ⟨by decide, fun e h => ?_, fun o e => ?_, by decide⟩
  · unfold exifOrientationTable
    split_ifs <;> first | rfl | (exfalso; omega)
  · simp [calculateRotationAndFlip]

/-- Witness for C4 amended: code 9 is outside the table and yields no
rotation; EXIF 6 plus user 90 additively gives 180 with no flip. -/
theorem C4_orientation_additive_amended_witness :
    exifOrientationTable 9 = (0, false) ∧
    calculateRotationAndFlip { Rotate := 90 } true 6 = (180, false) :=
  ⟨C4_orientation_additive_amended.2.1 9 (Or.inr (by norm_num)),
   C4_orientation_additive_amended.2.2.2⟩

/-- C5 (code bug): with a user rotation of 90 and additive mode off,
`calculateRotationAndFlip` returns rotation 0 and no flip for every EXIF
value (EXIF is indeed not consulted, but the user's rotation is not returned
either), and `rotateAndFlipImage` then overwrites `Options.Rotate` with that
0 (auto-rotate active), so no rotation at all is applied and no rotate call
reaches the engine. -/
theorem C5_user_rotation_dropped :
    (∀ exif : Int, calculateRotationAndFlip { Rotate := 90 } false exif = (0, false)) ∧
    rotateAndFlipImage c2Engine ⟨100, 100, 10, ImageType.jpeg⟩ { Rotate := 90 } false
      = (Except.ok (false, ⟨100, 100, 10, ImageType.jpeg⟩, { Rotate := 0 }), []) :=
  ⟨fun _ => rfl, rfl⟩

/-- C6: an image already exactly at the requested size, processed with crop
mode and no force/embed/enlarge/trim flags and no extract region, makes the
transform-gate predicate false (after `normalizeOperation`, which leaves the
options unchanged because Crop is set), so the transform stage runs no
engine call. -/
theorem C6_transform_gate_identity (img : Img) (o : Options)
    (hC : o.Crop = true) (hF : o.Force = false) (hEm : o.Embed = false)
    (hE : o.Enlarge = false) (hT : o.Trim = false)
    (hEW : o.Extract.Width = 0) (hEH : o.Extract.Height = 0)
    (hW : o.Width = img.Xsize) (hH : o.Height = img.Ysize) :
    shouldTransformImage img (normalizeOperation o) = false := by
  have hno : normalizeOperation o = o := by
    unfold normalizeOperation
    rw [hC]
    simp
  rw [hno]
  simp [shouldTransformImage, hF, hE, hT, hEW, hEH, hW, hH]

/-- Witness for C6: a 100x100 image cropped to 100x100 skips the transform
stage. -/
theorem C6_transform_gate_identity_witness :
    shouldTransformImage ⟨100, 100, 10, ImageType.jpeg⟩
      (normalizeOperation { Width := 100, Height := 100, Crop := true }) = false :=
  C6_transform_gate_identity ⟨100, 100, 10, ImageType.jpeg⟩
    { Width := 100, Height := 100, Crop := true }
    (by decide) (by decide) (by decide) (by decide) (by decide) (by decide) (by decide)
    (by decide) (by decide)

/-- C7 counterexample: for a 400x400 source forced into a 100x100 box
(window size 2), shrink = 4 and residual = 1, so shrink * residual = 4 while
1/ScaleFactor = 1/4 — nowhere near within floating-point tolerance. -/
theorem C7_product_counterexample :
    ((calculateShrink 2 ⟨400, 400, 10, ImageType.jpeg⟩
        { Width := 100, Height := 100, Force := true }).1 : Rat)
      * (calculateResidual 2 ⟨400, 400, 10, ImageType.jpeg⟩
        { Width := 100, Height := 100, Force := true }).1 = 4 ∧
    1 / (ScaleFactor ⟨400, 400, 10, ImageType.jpeg⟩
        { Width := 100, Height := 100, Force := true }).1 = 1/4 ∧
    ¬(|(4 : Rat) - 1/4| ≤ 1/100) := by
  norm_num [calculateShrink, calculateResidual, ScaleFactor, noEnlargeShortCircuit, abs]

/-- C7 amended: with both target dimensions resolved (positive),
`calculateShrink` is an integer at least 1; `calculateResidual` is 0 under
the no-resize short-circuit and otherwise equals shrink divided by
`ScaleFactor`; and it is residual DIVIDED BY shrink (the net scale of the
shrink-then-affine pipeline), not shrink times residual, that equals
1/ScaleFactor — exactly, in the rational model. -/
theorem C7_shrink_residual_amended (ws : Rat) (img : Img) (o : Options)
    (hW : 0 < o.Width) (hH : 0 < o.Height) :
    1 ≤ (calculateShrink ws img o).1 ∧
    (noEnlargeShortCircuit img o = true → (calculateResidual ws img o).1 = 0) ∧
    (noEnlargeShortCircuit img o = false →
      (calculateResidual ws img o).1
          = ((calculateShrink ws img o).1 : Rat) / (ScaleFactor img o).1 ∧
        (calculateResidual ws img o).1 / ((calculateShrink ws img o).1 : Rat)
          = 1 / (ScaleFactor img o).1) := by
  refine ⟨calculateShrink_pos ws img o, fun hsc => ?_, fun hsc => ?_⟩
  · unfold calculateResidual
    rw [hsc]
    simp
  · have hstate := calculateShrink_state_eq ws img o hW hH
    have hres : (calculateResidual ws img o).1
        = ((calculateShrink ws img o).1 : Rat) / (ScaleFactor img o).1 := by
      unfold calculateResidual
      rw [hsc]
      simp [hstate]
    refine ⟨hres, ?_⟩
    rw [hres]
    have hs : ((calculateShrink ws img o).1 : Rat) ≠ 0 := by
      have := calculateShrink_pos ws img o
      exact_mod_cast (by omega : (calculateShrink ws img o).1 ≠ 0)
    rw [div_div, mul_comm, ← div_div, div_self hs]

/-- Witness for C7 amended at the 400x400 forced-into-100x100 input. -/
theorem C7_shrink_residual_amended_witness :
    1 ≤ (calculateShrink 2 ⟨400, 400, 10, ImageType.jpeg⟩
      { Width := 100, Height := 100, Force := true }).1 ∧
    ((calculateResidual 2 ⟨400, 400, 10, ImageType.jpeg⟩
        { Width := 100, Height := 100, Force := true }).1
      = ((calculateShrink 2 ⟨400, 400, 10, ImageType.jpeg⟩
        { Width := 100, Height := 100, Force := true }).1 : Rat)
        / (ScaleFactor ⟨400, 400, 10, ImageType.jpeg⟩
        { Width := 100, Height := 100, Force := true }).1 ∧
      (calculateResidual 2 ⟨400, 400, 10, ImageType.jpeg⟩
        { Width := 100, Height := 100, Force := true }).1
        / ((calculateShrink 2 ⟨400, 400, 10, ImageType.jpeg⟩
        { Width := 100, Height := 100, Force := true }).1 : Rat)
      = 1 / (ScaleFactor ⟨400, 400, 10, ImageType.jpeg⟩
        { Width := 100, Height := 100, Force := true }).1) := by
  have h := C7_shrink_residual_amended 2 ⟨400, 400, 10, ImageType.jpeg⟩
    { Width := 100, Height := 100, Force := true } (by decide) (by decide)
  exact ⟨h.1, h.2.2 (by decide)⟩

/-- C8: `calculateCrop` follows the claimed per-gravity offset table (with
Go's truncating integer division), and the Center instance
(1000, 800, 500, 400) gives left 250, top 200. -/
theorem C8_calculateCrop_gravity :
    (∀ inW inH outW outH : Int,
      calculateCrop inW inH outW outH .north = (goDiv (inW - outW + 1) 2, 0) ∧
      calculateCrop inW inH outW outH .east = (inW - outW, goDiv (inH - outH + 1) 2) ∧
      calculateCrop inW inH outW outH .south = (goDiv (inW - outW + 1) 2, inH - outH) ∧
      calculateCrop inW inH outW outH .west = (0, goDiv (inH - outH + 1) 2) ∧
      calculateCrop inW inH outW outH .centre
        = (goDiv (inW - outW + 1) 2, goDiv (inH - outH + 1) 2)) ∧
    calculateCrop 1000 800 500 400 .centre = (250, 200) :=
  ⟨fun _ _ _ _ => ⟨rfl, rfl, rfl, rfl, rfl⟩, by decide⟩

/-- C9: the image-watermark placement follows the claimed formulas in both
relative and absolute modes (vertical axis symmetric), and the instances
srcX=1000, wmX=100, Right, 10% giving left 800 and srcY=800, wmY=50, Bottom,
5% giving top 710 hold. -/
theorem C9_watermark_placement :
    (∀ hOff vOff srcX srcY wmX wmY : Rat,
      vipsDrawWatermarkPlacement true .left .top hOff vOff srcX srcY wmX wmY
        = ((hOff / 100) * srcX, (vOff / 100) * srcY) ∧
      vipsDrawWatermarkPlacement true .right .bottom hOff vOff srcX srcY wmX wmY
        = (srcX - (hOff / 100) * srcX - wmX, srcY - (vOff / 100) * srcY - wmY) ∧
      vipsDrawWatermarkPlacement true .centre .centre hOff vOff srcX srcY wmX wmY
        = ((srcX - wmX) / 2, (srcY - wmY) / 2) ∧
      vipsDrawWatermarkPlacement false .left .top hOff vOff srcX srcY wmX wmY
        = (hOff, vOff) ∧
      vipsDrawWatermarkPlacement false .right .bottom hOff vOff srcX srcY wmX wmY
        = (srcX - hOff - wmX, srcY - vOff - wmY) ∧
      vipsDrawWatermarkPlacement false .centre .centre hOff vOff srcX srcY wmX wmY
        = ((srcX - wmX) / 2, (srcY - wmY) / 2)) ∧
    vipsDrawWatermarkPlacement true .right .bottom 10 5 1000 800 100 50 = (800, 710) := by
  refine ⟨fun _ _ _ _ _ _ => ⟨rfl, rfl, rfl, rfl, rfl, rfl⟩, ?_⟩
  norm_num [vipsDrawWatermarkPlacement]

/-- C10 (code bug): the Go body of `Image.Metadata` is `return i.Metadata()`
— a call to itself — so for every recursion budget it produces no result
(the real call never terminates), and `Image.Size`, which goes through it,
diverges with it. -/
theorem C10_metadata_divergence :
    (∀ fuel : Nat, Image.Metadata fuel = none) ∧
    (∀ fuel : Nat, Image.Size fuel = none) := by
  have h : ∀ fuel : Nat, Image.Metadata fuel = none := by
    intro fuel
    induction fuel with
    | zero => rfl
    | succ n ih => simpa [Image.Metadata] using ih
  exact ⟨h, fun fuel => by simp [Image.Size, h fuel]⟩
